import Mathlib

/-!
Shallow embedding of the cross-service order fulfillment workflow of the
inventory-microservices repository.

The order workflow service (the second program in
src/services/payment-service/main.go) exposes two handlers:

* `createOrder`     — POST /orders       (single-item workflow)
* `createBulkOrder` — POST /orders/bulk  (bulk workflow)

Both call the inventory service through `getProductInfo` (GET /products/id)
and `updateProductStock` (PUT /products/id), persist rows in the `orders`
table, and publish `order_created` events to Kafka via `publishEvent`.

The inventory service (the second program in src/services/order-service/main.go)
handles the PUT in `updateProduct`, an unconditional
`UPDATE products SET name, description, price, stock WHERE id` statement.

Modelling conventions:
* Go `float64` prices are modelled as `Rat` (exact arithmetic); Go `int` as `Int`.
* Every network or database outcome that the Go code observes (fetch result,
  insert result, transaction begin/commit success, stock-update success,
  Kafka publish success) is an explicit input in an environment record, so a
  handler is a pure function of the decoded request, the environment and the
  current committed table contents.
* The committed `orders` table is a `List Order`; a handler returns the new
  table, the HTTP status and body, the list of outbound external actions it
  performed, and the log lines it emitted.  JSON decoding of the request body
  happens before the logic modelled here; the claims quantify over decoded
  requests.
-/

/-- Product as decoded by the order workflow from the inventory service
(fields id, name, price, stock of the Go `Product` struct in the workflow
service). -/
structure Product where
  id : Int
  name : String
  price : Rat
  stock : Int
deriving Repr, DecidableEq

/-- A decoded single-order request body: product_id, quantity, user_id. -/
structure OrderReq where
  productId : Int
  quantity : Int
  userId : Int
deriving Repr, DecidableEq

/-- One line item of a decoded bulk request body. -/
structure Item where
  productId : Int
  quantity : Int
deriving Repr, DecidableEq

instance : Inhabited Item := ⟨⟨0, 0⟩⟩

/-- A persisted row of the `orders` table, as inserted by the workflow
(id and created_at are assigned by the store via RETURNING). -/
structure Order where
  id : Int
  userId : Int
  productId : Int
  quantity : Int
  totalPrice : Rat
  status : String
  createdAt : Int
deriving Repr, DecidableEq

/-- Outcome of one `getProductInfo` call: a transport error carries the Go
error message; a non-200 response is turned into the fixed error
"product not found". -/
inductive FetchErr where
  | netErr (msg : String)
  | badStatus
deriving Repr, DecidableEq

/-- The `err.Error()` string the workflow interpolates into its responses. -/
def FetchErr.msg : FetchErr → String
  | .netErr m => m
  | .badStatus => "product not found"

/-- The JSON object `updateProductStock` PUTs to the inventory service:
name and price copied from the snapshot, description hard-coded to the
empty string, stock set to the new value. -/
structure UpdatePayload where
  name : String
  description : String
  price : Rat
  stock : Int
deriving Repr, DecidableEq

/-- Builds the body sent by `updateProductStock` (payment-service/main.go,
`updateData` map). -/
def stockUpdatePayload (product : Product) (newStock : Int) : UpdatePayload :=
  ⟨product.name, "", product.price, newStock⟩

/-- The `order_created` event payload published to Kafka. -/
structure Event where
  eventType : String
  orderId : Int
  productId : Int
  quantity : Int
  totalPrice : Rat
  timestamp : Int
deriving Repr, DecidableEq

/-- The event built for a freshly persisted order. -/
def orderCreatedEvent (o : Order) (t : Int) : Event :=
  ⟨"order_created", o.id, o.productId, o.quantity, o.totalPrice, t⟩

/-- An outbound call performed during the external phase. -/
inductive ExtAction where
  | updateStock (productId : Int) (payload : UpdatePayload)
  | publish (e : Event)
deriving Repr, DecidableEq

/-- Log lines the handlers emit (only the branches the workflow takes on
background failures; content abstracted to the identifying data). -/
inductive LogEntry where
  | invUpdateFailed (productId : Int)
  | publishFailed
  | published
  | insertFailed (productId : Int)
  | commitFailed
deriving Repr, DecidableEq

/-- An HTTP response body: a single order (201), a list of orders (bulk 201),
or an error text (http.Error). -/
inductive Body where
  | orderBody (o : Order)
  | ordersBody (os : List Order)
  | errText (s : String)
deriving Repr, DecidableEq

/-- What a handler invocation produces: HTTP status and body, the committed
`orders` table after the invocation, the outbound external actions in the
order they were performed, and the log lines. -/
structure HandlerResult where
  status : Nat
  body : Body
  db : List Order
  acts : List ExtAction
  logs : List LogEntry
deriving Repr, DecidableEq

/-- The log lines `publishEvent` itself emits: it swallows the Kafka error,
logging either a failure or the published event. -/
def publishLog (ok : Bool) : LogEntry :=
  if ok then .published else .publishFailed

/-- Environment of one single-order invocation: the observed outcome of each
external interaction, in program order. `insert` is the result of the
INSERT ... RETURNING id, created_at. -/
structure SingleEnv where
  fetch : Except FetchErr Product
  insert : Except Unit (Int × Int)
  updateOk : Bool
  publishOk : Bool
  now : Int
deriving Repr

/-- Handler createOrder (payment-service/main.go lines 564-640): fetch the product,
check stock, insert one confirmed row, then best-effort stock update and
event publish, and answer 201 with the persisted order. -/
def createOrder (req : OrderReq) (env : SingleEnv) (db : List Order) :
    HandlerResult :=
  match env.fetch with
  | .error e =>
      ⟨500, .errText ("Failed to fetch product info: " ++ e.msg), db, [], []⟩
  | .ok product =>
      if product.stock < req.quantity then
        ⟨400, .errText "Insufficient stock", db, [], []⟩
      else
        let totalPrice := product.price * (req.quantity : Rat)
        match env.insert with
        | .error _ =>
            ⟨500, .errText "insert failed", db, [], []⟩
        | .ok (oid, ts) =>
            let order : Order :=
              ⟨oid, req.userId, req.productId, req.quantity, totalPrice,
               "confirmed", ts⟩
            let newStock := product.stock - req.quantity
            let acts : List ExtAction :=
              [.updateStock req.productId (stockUpdatePayload product newStock),
               .publish (orderCreatedEvent order env.now)]
            let logs : List LogEntry :=
              (if env.updateOk then [] else [.invUpdateFailed req.productId])
                ++ [publishLog env.publishOk]
            ⟨201, .orderBody order, db ++ [order], acts, logs⟩

/-- A line item paired with the snapshot it was validated against
(the `ValidatedItem` struct of `createBulkOrder`). -/
structure ValidatedItem where
  productId : Int
  quantity : Int
  product : Product
deriving Repr, DecidableEq

/-- Why bulk validation rejected the batch: product fetch failure or
insufficient stock, with the offending product id. -/
inductive BulkFail where
  | fetchFail (productId : Int) (e : FetchErr)
  | stockFail (productId : Int)
deriving Repr, DecidableEq

/-- The http.Error text for a bulk validation failure. -/
def BulkFail.msg : BulkFail → String
  | .fetchFail pid e => "Failed to fetch product " ++ toString pid ++ ": " ++ e.msg
  | .stockFail pid => "Insufficient stock for product " ++ toString pid

/-- Environment of one bulk invocation; call-position-indexed outcomes for
the per-item interactions. -/
structure BulkEnv where
  fetch : Nat → Except FetchErr Product
  beginOk : Bool
  insert : Nat → Except Unit (Int × Int)
  commitOk : Bool
  updateOk : Nat → Bool
  publishOk : Nat → Bool
  now : Nat → Int

/-- The validation-phase loop of `createBulkOrder`: sequential fetch and
stock check, aborting the whole batch on the first failure. `i` is the
index of the next fetch call. -/
def validateGo (fetch : Nat → Except FetchErr Product) :
    Nat → List Item → Except BulkFail (List ValidatedItem)
  | _, [] => .ok []
  | i, item :: rest =>
      match fetch i with
      | .error e => .error (.fetchFail item.productId e)
      | .ok p =>
          if p.stock < item.quantity then
            .error (.stockFail item.productId)
          else
            match validateGo fetch (i + 1) rest with
            | .error f => .error f
            | .ok vs => .ok (⟨item.productId, item.quantity, p⟩ :: vs)

/-- The transaction-phase loop: one INSERT per validated item inside the
transaction; the first failing insert aborts (carrying the product id for
the log line). User id is not in the column list, so the row gets the
schema default 0, matching the zero value of the Go struct. -/
def txGo (insert : Nat → Except Unit (Int × Int)) :
    Nat → List ValidatedItem → Except Int (List Order)
  | _, [] => .ok []
  | i, v :: rest =>
      match insert i with
      | .error _ => .error v.productId
      | .ok (oid, ts) =>
          let o : Order :=
            ⟨oid, 0, v.productId, v.quantity,
             v.product.price * (v.quantity : Rat), "confirmed", ts⟩
          match txGo insert (i + 1) rest with
          | .error pid => .error pid
          | .ok os => .ok (o :: os)

/-- The external-phase loop of `createBulkOrder`: for each created order and
its validated item, the stock update then the event publish. -/
def extGo (now : Nat → Int) :
    Nat → List (Order × ValidatedItem) → List ExtAction
  | _, [] => []
  | i, (o, v) :: rest =>
      .updateStock v.productId
          (stockUpdatePayload v.product (v.product.stock - v.quantity))
        :: .publish (orderCreatedEvent o (now i))
        :: extGo now (i + 1) rest

/-- Log lines of the bulk external phase. -/
def extLogsGo (updateOk publishOk : Nat → Bool) :
    Nat → List (Order × ValidatedItem) → List LogEntry
  | _, [] => []
  | i, (_, v) :: rest =>
      (if updateOk i then [] else [LogEntry.invUpdateFailed v.productId])
        ++ publishLog (publishOk i)
        :: extLogsGo updateOk publishOk (i + 1) rest

/-- Handler createBulkOrder (payment-service/main.go lines 642-749): validate every
item (first failure answers 400 and aborts), insert all rows in one
transaction (any insert or commit failure rolls back and answers 500),
then per item the best-effort stock update and event publish, and answer
201 with all created orders. -/
def createBulkOrder (items : List Item) (env : BulkEnv) (db : List Order) :
    HandlerResult :=
  match validateGo env.fetch 0 items with
  | .error f => ⟨400, .errText f.msg, db, [], []⟩
  | .ok vs =>
      if env.beginOk then
        match txGo env.insert 0 vs with
        | .error pid =>
            ⟨500, .errText "Internal Server Error", db, [],
             [.insertFailed pid]⟩
        | .ok os =>
            if env.commitOk then
              let pairs := os.zip vs
              ⟨201, .ordersBody os, db ++ os,
               extGo env.now 0 pairs,
               extLogsGo env.updateOk env.publishOk 0 pairs⟩
            else
              ⟨500, .errText "Internal Server Error", db, [], [.commitFailed]⟩
      else
        ⟨500, .errText "Failed to start transaction", db, [], []⟩

/-- A row of the inventory service's `products` table. -/
structure InvProduct where
  id : Int
  name : String
  description : String
  price : Rat
  stock : Int
  createdAt : Int
deriving Repr, DecidableEq

/-- Handler updateProduct of the inventory service (order-service/main.go
lines 713-768): decode, then db.Exec of an unconditional UPDATE of name,
description, price and stock on the row matching the id. `execOk` is the
observed outcome of db.Exec: on an exec error the handler answers 500 and
the statement applied nothing; otherwise 404 when no row matched
(RowsAffected is 0), else the matching row is overwritten and the handler
answers 200. Returns the new table and the HTTP status. -/
def updateProduct (rows : List InvProduct) (pid : Int) (u : UpdatePayload)
    (execOk : Bool) : List InvProduct × Nat :=
  if execOk then
    let affected := rows.countP (fun r => r.id = pid)
    if affected = 0 then
      (rows, 404)
    else
      (rows.map (fun r =>
          if r.id = pid then
            ⟨r.id, u.name, u.description, u.price, u.stock, r.createdAt⟩
          else r),
       200)
  else
    (rows, 500)

/-- The round trip of `updateProductStock` against the inventory service:
PUT the payload built from the snapshot. `transportOk` is the outcome of
httpClient.Do: a transport failure returns an error before the request is
served, leaving the remote table unchanged; otherwise the inventory
handler runs (with db.Exec outcome `execOk`) and the client reports success
exactly when the remote answered 200 (any non-200, including the handler's
404 and 500, is returned as an UpdateFailed error). -/
def updateProductStockRemote (rows : List InvProduct) (pid : Int)
    (product : Product) (newStock : Int) (transportOk execOk : Bool) :
    List InvProduct × Bool :=
  if transportOk then
    let r := updateProduct rows pid (stockUpdatePayload product newStock) execOk
    (r.1, decide (r.2 = 200))
  else
    (rows, false)

/-- Decidable form of "item `item` passes validation when its fetch is call
number `i`": the fetch succeeds and the snapshot's stock covers the
quantity. -/
def itemValidates (fetch : Nat → Except FetchErr Product) (item : Item)
    (i : Nat) : Bool :=
  match fetch i with
  | .error _ => false
  | .ok p => !(p.stock < item.quantity)

instance : Inhabited Product := ⟨⟨0, "", 0, 0⟩⟩

instance : Inhabited Order := ⟨⟨0, 0, 0, 0, 0, "", 0⟩⟩

instance : Inhabited ValidatedItem := ⟨⟨0, 0, default⟩⟩

instance : Inhabited ExtAction := ⟨.publish ⟨"", 0, 0, 0, 0, 0⟩⟩

instance : Inhabited InvProduct := ⟨⟨0, "", "", 0, 0, 0⟩⟩

instance {ε α : Type} [DecidableEq ε] [DecidableEq α] :
    DecidableEq (Except ε α) := fun x y =>
  match x, y with
  | .error a, .error b =>
      if h : a = b then .isTrue (by rw [h])
      else .isFalse (fun hc => by cases hc; exact h rfl)
  | .error _, .ok _ => .isFalse (fun hc => by cases hc)
  | .ok _, .error _ => .isFalse (fun hc => by cases hc)
  | .ok a, .ok b =>
      if h : a = b then .isTrue (by rw [h])
      else .isFalse (fun hc => by cases hc; exact h rfl)

/-! ### Concrete runs used to exercise the handlers -/

/-- Scenario product: id 1, price 100.00, stock 50. -/
def productA : Product := ⟨1, "Laptop", 100, 50⟩

/-- Scenario product: id 2, price 10.00, stock 10. -/
def productB : Product := ⟨2, "Phone", 10, 10⟩

/-- Single-order request: product 1, quantity 5, user 7. -/
def reqA : OrderReq := ⟨1, 5, 7⟩

/-- Environment of a fully successful single-order run. -/
def envA : SingleEnv := ⟨.ok productA, .ok (10, 99), true, true, 123⟩

/-- Environment in which the inventory fetch fails with a transport error. -/
def envFetchFail : SingleEnv :=
  ⟨.error (.netErr "connection refused"), .ok (1, 0), true, true, 0⟩

/-- Single-order request with quantity 0 (product 1, user 7). -/
def reqZero : OrderReq := ⟨1, 0, 7⟩

/-- Environment of a single-order run used with the zero-quantity request. -/
def envZero : SingleEnv := ⟨.ok productA, .ok (11, 5), true, true, 0⟩

/-- Bulk fetch oracle: call 0 answers product 1, later calls product 2. -/
def bulkFetchB (i : Nat) : Except FetchErr Product :=
  if i = 0 then .ok productA else .ok productB

/-- Bulk insert oracle: the i-th insert returns id 20+i, created_at 7. -/
def bulkInsertB (i : Nat) : Except Unit (Int × Int) :=
  .ok (20 + (i : Int), 7)

/-- Bulk items that all validate against `bulkFetchB`. -/
def bulkItemsOk : List Item := [⟨1, 2⟩, ⟨2, 3⟩]

/-- Bulk items where item 2 requests 100 against stock 10 (scenario C). -/
def bulkItemsBad : List Item := [⟨1, 2⟩, ⟨2, 100⟩]

/-- Environment of a fully successful bulk run. -/
def bulkEnvB : BulkEnv :=
  ⟨bulkFetchB, true, bulkInsertB, true, fun _ => true, fun _ => true,
   fun _ => 55⟩

/-- Same bulk environment except that the commit fails. -/
def bulkEnvCommitFail : BulkEnv :=
  ⟨bulkFetchB, true, bulkInsertB, false, fun _ => true, fun _ => true,
   fun _ => 55⟩

/-- Bulk environment in which every inventory fetch fails. -/
def bulkEnvFetchFail : BulkEnv :=
  ⟨fun _ => .error (.netErr "connection refused"), true, bulkInsertB, true,
   fun _ => true, fun _ => true, fun _ => 0⟩

/-- The validated items of the successful bulk run. -/
def vsB : List ValidatedItem := [⟨1, 2, productA⟩, ⟨2, 3, productB⟩]

/-- The orders created by the successful bulk run. -/
def osB : List Order :=
  [⟨20, 0, 1, 2, 200, "confirmed", 7⟩, ⟨21, 0, 2, 3, 30, "confirmed", 7⟩]

/-- Inventory-service table used for the stock-update round trip. -/
def invRowsA : List InvProduct :=
  [⟨1, "Laptop", "A fine laptop", 100, 50, 3⟩, ⟨2, "Phone", "A fine phone", 10, 10, 4⟩]

/-! ### Structural lemmas about the loops of the bulk workflow -/

/-- A successful validation phase validates every item. -/
theorem validateGo_ok_length (fetch : Nat → Except FetchErr Product) :
    ∀ (items : List Item) (i : Nat) (vs : List ValidatedItem),
      validateGo fetch i items = .ok vs → vs.length = items.length := by
  intro items
  induction items with
  | nil =>
      intro i vs h
      simp only [validateGo] at h
      cases h
      rfl
  | cons item rest ih =>
      intro i vs h
      cases hf : fetch i with
      | error e => simp [validateGo, hf] at h
      | ok p =>
          by_cases hs : p.stock < item.quantity
          · simp [validateGo, hf, hs] at h
          · cases hr : validateGo fetch (i + 1) rest with
            | error f => simp [validateGo, hf, hs, hr] at h
            | ok vs2 =>
                simp only [validateGo, hf, hs, hr, if_neg] at h
                cases h
                simpa using ih (i + 1) vs2 hr

/-- A successful transaction phase creates one confirmed row per validated
item, with total price equal to the validation-time unit price times the
quantity, the matching product id and quantity, and the default user id. -/
theorem txGo_ok_spec (insert : Nat → Except Unit (Int × Int)) :
    ∀ (vs : List ValidatedItem) (i : Nat) (os : List Order),
      txGo insert i vs = .ok os →
      List.Forall₂ (fun (v : ValidatedItem) (o : Order) =>
        o.productId = v.productId ∧ o.quantity = v.quantity ∧
        o.totalPrice = v.product.price * (v.quantity : Rat) ∧
        o.status = "confirmed" ∧ o.userId = 0) vs os := by
  intro vs
  induction vs with
  | nil =>
      intro i os h
      simp only [txGo] at h
      cases h
      exact List.Forall₂.nil
  | cons v rest ih =>
      intro i os h
      cases hins : insert i with
      | error u => simp [txGo, hins] at h
      | ok pr =>
          obtain ⟨oid, ts⟩ := pr
          cases hr : txGo insert (i + 1) rest with
          | error pid => simp [txGo, hins, hr] at h
          | ok os2 =>
              simp only [txGo, hins, hr] at h
              cases h
              exact List.Forall₂.cons ⟨rfl, rfl, rfl, rfl, rfl⟩ (ih (i + 1) os2 hr)

/-- If every item before position `k` validates and the item at `k` fails
(fetch error or insufficient stock), the validation loop rejects the batch. -/
theorem validateGo_error_of_item_failure (fetch : Nat → Except FetchErr Product) :
    ∀ (items : List Item) (i k : Nat), k < items.length →
      (∀ j, j < k → itemValidates fetch (items.getD j default) (i + j) = true) →
      itemValidates fetch (items.getD k default) (i + k) = false →
      ∃ f, validateGo fetch i items = .error f := by
  intro items
  induction items with
  | nil => intro i k hk _ _; simp at hk
  | cons item rest ih =>
      intro i k hk hpre hfail
      cases k with
      | zero =>
          rw [List.getD_cons_zero, Nat.add_zero] at hfail
          unfold itemValidates at hfail
          cases hf : fetch i with
          | error e => exact ⟨.fetchFail item.productId e, by simp [validateGo, hf]⟩
          | ok p =>
              rw [hf] at hfail
              have hs : p.stock < item.quantity := by
                by_contra hc
                simp [hc] at hfail
              exact ⟨.stockFail item.productId, by simp [validateGo, hf, hs]⟩
      | succ k2 =>
          have h0 := hpre 0 (Nat.succ_pos _)
          rw [List.getD_cons_zero, Nat.add_zero] at h0
          unfold itemValidates at h0
          cases hf : fetch i with
          | error e => rw [hf] at h0; cases h0
          | ok p =>
              rw [hf] at h0
              have hs : ¬ p.stock < item.quantity := by
                intro hc
                simp [hc] at h0
              have hk2 : k2 < rest.length := by simpa using hk
              have hpre2 : ∀ j, j < k2 →
                  itemValidates fetch (rest.getD j default) (i + 1 + j) = true := by
                intro j hj
                have h := hpre (j + 1) (by omega)
                rw [List.getD_cons_succ] at h
                have he : i + (j + 1) = i + 1 + j := by omega
                rw [he] at h
                exact h
              have hfail2 :
                  itemValidates fetch (rest.getD k2 default) (i + 1 + k2) = false := by
                rw [List.getD_cons_succ] at hfail
                have he : i + (k2 + 1) = i + 1 + k2 := by omega
                rw [he] at hfail
                exact hfail
              obtain ⟨f, hfk⟩ := ih (i + 1) k2 hk2 hpre2 hfail2
              exact ⟨f, by simp [validateGo, hf, hs, hfk]⟩

/-- The external phase performs exactly two actions per created order. -/
theorem extGo_length (now : Nat → Int) :
    ∀ (pairs : List (Order × ValidatedItem)) (i : Nat),
      (extGo now i pairs).length = 2 * pairs.length := by
  intro pairs
  induction pairs with
  | nil => intro i; simp [extGo]
  | cons pr rest ih =>
      intro i
      obtain ⟨o, v⟩ := pr
      simp [extGo, ih (i + 1)]
      omega

/-- For the `j`-th created order, action `2j` of the external phase is the
stock update (decrementing the validation-time stock by the quantity) and
action `2j+1` is the `order_created` publish. -/
theorem extGo_getD (now : Nat → Int) :
    ∀ (pairs : List (Order × ValidatedItem)) (i j : Nat), j < pairs.length →
      (extGo now i pairs).getD (2 * j) default =
        .updateStock (pairs.getD j default).2.productId
          (stockUpdatePayload (pairs.getD j default).2.product
            ((pairs.getD j default).2.product.stock -
              (pairs.getD j default).2.quantity)) ∧
      (extGo now i pairs).getD (2 * j + 1) default =
        .publish (orderCreatedEvent (pairs.getD j default).1 (now (i + j))) := by
  intro pairs
  induction pairs with
  | nil => intro i j hj; simp at hj
  | cons pr rest ih =>
      intro i j hj
      obtain ⟨o, v⟩ := pr
      cases j with
      | zero =>
          constructor
          · simp [extGo]
          · simp [extGo]
      | succ j2 =>
          have hj2 : j2 < rest.length := by simpa using hj
          have h := ih (i + 1) j2 hj2
          have e1 : 2 * (j2 + 1) = 2 * j2 + 1 + 1 := by omega
          have e2 : 2 * (j2 + 1) + 1 = (2 * j2 + 1) + 1 + 1 := by omega
          constructor
          · rw [e1]
            simpa [extGo, List.getD_cons_succ] using h.1
          · rw [e2]
            have e3 : i + 1 + j2 = i + (j2 + 1) := by omega
            have h2 := h.2
            rw [e3] at h2
            simpa [extGo, List.getD_cons_succ] using h2

/-! ### C6: insufficient stock on a single order -/

/-- C6: when the fetched snapshot has stock strictly below the requested
quantity, `createOrder` answers 400 "Insufficient stock", leaves the orders
table unchanged, and performs no external action. -/
theorem insufficient_stock_400_no_row (req : OrderReq) (env : SingleEnv)
    (db : List Order) (p : Product) (hf : env.fetch = .ok p)
    (hs : p.stock < req.quantity) :
    (createOrder req env db).status = 400 ∧
    (createOrder req env db).body = .errText "Insufficient stock" ∧
    (createOrder req env db).db = db ∧
    (createOrder req env db).acts = [] := by
  simp [createOrder, hf, hs]

/-- Witness for C6 at a concrete run: product 3 with stock 3, requested
quantity 5. -/
theorem insufficient_stock_400_no_row_witness :
    (createOrder ⟨3, 5, 1⟩
        ⟨.ok ⟨3, "Gadget", 20, 3⟩, .ok (1, 0), true, true, 0⟩ []).status = 400 ∧
    (createOrder ⟨3, 5, 1⟩
        ⟨.ok ⟨3, "Gadget", 20, 3⟩, .ok (1, 0), true, true, 0⟩ []).db = [] := by
  have h := insufficient_stock_400_no_row ⟨3, 5, 1⟩
    ⟨.ok ⟨3, "Gadget", 20, 3⟩, .ok (1, 0), true, true, 0⟩ []
    ⟨3, "Gadget", 20, 3⟩ rfl (by decide)
  exact ⟨h.1, h.2.2.1⟩

/-! ### C1: a 201 single-order response persists exactly one matching row -/

/-- C1: a 201 response from `createOrder` implies the fetch and the insert
succeeded, exactly one row was appended to the orders table, that row has
status "confirmed" and the request's product id, quantity and user id with
total price computed from the fetched snapshot, the response body is that
persisted row, and the status and body do not depend on the external-phase
outcomes. -/
theorem createOrder_201_persists_one_matching_row
    (req : OrderReq) (env : SingleEnv) (db : List Order)
    (h : (createOrder req env db).status = 201) :
    ∃ p oid ts,
      env.fetch = .ok p ∧ ¬ p.stock < req.quantity ∧
      env.insert = .ok (oid, ts) ∧
      (createOrder req env db).db =
        db ++ [⟨oid, req.userId, req.productId, req.quantity,
                p.price * (req.quantity : Rat), "confirmed", ts⟩] ∧
      (createOrder req env db).body =
        .orderBody ⟨oid, req.userId, req.productId, req.quantity,
                p.price * (req.quantity : Rat), "confirmed", ts⟩ ∧
      ∀ u2 p2 : Bool,
        (createOrder req ⟨env.fetch, env.insert, u2, p2, env.now⟩ db).status =
          (createOrder req env db).status ∧
        (createOrder req ⟨env.fetch, env.insert, u2, p2, env.now⟩ db).body =
          (createOrder req env db).body := by
  cases hf : env.fetch with
  | error e => simp [createOrder, hf] at h
  | ok p =>
      by_cases hs : p.stock < req.quantity
      · simp [createOrder, hf, hs] at h
      · cases hins : env.insert with
        | error u => simp [createOrder, hf, hs, hins] at h
        | ok pr =>
            obtain ⟨oid, ts⟩ := pr
            refine ⟨p, oid, ts, rfl, hs, rfl, ?_, ?_, ?_⟩
            · simp [createOrder, hf, hs, hins]
            · simp [createOrder, hf, hs, hins]
            · intro u2 p2
              constructor <;> simp [createOrder, hf, hs, hins]

/-- Witness for C1: scenario A (product 1, price 100.00, stock 50, quantity
5) answers 201, and the theorem yields the persisted row 500.00-priced
confirmed order. -/
theorem createOrder_201_persists_one_matching_row_witness :
    ∃ p oid ts,
      envA.fetch = .ok p ∧ ¬ p.stock < reqA.quantity ∧
      envA.insert = .ok (oid, ts) ∧
      (createOrder reqA envA []).db =
        [] ++ [⟨oid, reqA.userId, reqA.productId, reqA.quantity,
                p.price * (reqA.quantity : Rat), "confirmed", ts⟩] ∧
      (createOrder reqA envA []).body =
        .orderBody ⟨oid, reqA.userId, reqA.productId, reqA.quantity,
                p.price * (reqA.quantity : Rat), "confirmed", ts⟩ ∧
      ∀ u2 p2 : Bool,
        (createOrder reqA ⟨envA.fetch, envA.insert, u2, p2, envA.now⟩ []).status =
          (createOrder reqA envA []).status ∧
        (createOrder reqA ⟨envA.fetch, envA.insert, u2, p2, envA.now⟩ []).body =
          (createOrder reqA envA []).body :=
  createOrder_201_persists_one_matching_row reqA envA [] (by decide)

/-! ### C2: total price equals validation-time unit price times quantity -/

/-- C2: for every accepted order — the single workflow's row as well as every
row of an accepted bulk batch — the persisted total price is the unit price
of the snapshot fetched during that invocation's validation phase times the
requested quantity. -/
theorem totalPrice_eq_validation_price_mul_quantity :
    (∀ (req : OrderReq) (env : SingleEnv) (db : List Order) (p : Product),
      env.fetch = .ok p →
      (createOrder req env db).status = 201 →
      ∃ o, (createOrder req env db).db = db ++ [o] ∧
        o.totalPrice = p.price * (o.quantity : Rat) ∧
        o.quantity = req.quantity) ∧
    (∀ (items : List Item) (env : BulkEnv) (db : List Order),
      (createBulkOrder items env db).status = 201 →
      ∃ vs os, validateGo env.fetch 0 items = .ok vs ∧
        (createBulkOrder items env db).db = db ++ os ∧
        List.Forall₂ (fun (v : ValidatedItem) (o : Order) =>
          o.totalPrice = v.product.price * (v.quantity : Rat) ∧
          o.productId = v.productId ∧ o.quantity = v.quantity) vs os) := by
  constructor
  · intro req env db p hf h
    by_cases hs : p.stock < req.quantity
    · simp [createOrder, hf, hs] at h
    · cases hins : env.insert with
      | error u => simp [createOrder, hf, hs, hins] at h
      | ok pr =>
          obtain ⟨oid, ts⟩ := pr
          exact ⟨⟨oid, req.userId, req.productId, req.quantity,
                  p.price * (req.quantity : Rat), "confirmed", ts⟩,
                 by simp [createOrder, hf, hs, hins], rfl, rfl⟩
  · intro items env db h
    cases hv : validateGo env.fetch 0 items with
    | error f => simp [createBulkOrder, hv] at h
    | ok vs =>
        by_cases hb : env.beginOk
        · cases ht : txGo env.insert 0 vs with
          | error pid => simp [createBulkOrder, hv, hb, ht] at h
          | ok os =>
              by_cases hc : env.commitOk
              · refine ⟨vs, os, rfl, by simp [createBulkOrder, hv, hb, ht, hc], ?_⟩
                exact (txGo_ok_spec env.insert vs 0 os ht).imp
                  (fun _ _ h5 => ⟨h5.2.2.1, h5.1, h5.2.1⟩)
              · simp [createBulkOrder, hv, hb, ht, hc] at h
        · simp [createBulkOrder, hv, hb] at h

/-- Witness for C2: the single scenario-A run persists total price 500.00 for
quantity 5 at unit price 100.00, and the successful two-item bulk run
persists 200.00 and 30.00. -/
theorem totalPrice_eq_validation_price_mul_quantity_witness :
    (∃ o, (createOrder reqA envA []).db = [] ++ [o] ∧
      o.totalPrice = productA.price * (o.quantity : Rat) ∧
      o.quantity = reqA.quantity) ∧
    (∃ vs os, validateGo bulkEnvB.fetch 0 bulkItemsOk = .ok vs ∧
      (createBulkOrder bulkItemsOk bulkEnvB []).db = [] ++ os ∧
      List.Forall₂ (fun (v : ValidatedItem) (o : Order) =>
        o.totalPrice = v.product.price * (v.quantity : Rat) ∧
        o.productId = v.productId ∧ o.quantity = v.quantity) vs os) :=
  ⟨totalPrice_eq_validation_price_mul_quantity.1 reqA envA [] productA rfl
      (by decide),
   totalPrice_eq_validation_price_mul_quantity.2 bulkItemsOk bulkEnvB []
      (by decide)⟩

/-! ### C3: the first bulk validation failure aborts the whole batch -/

/-- C3: if in an N-item bulk request every item before position k validates
and the item at position k fails (fetch failure or insufficient stock),
`createBulkOrder` answers 400 before any database write: the orders table is
unchanged and no external action is performed. -/
theorem bulk_validation_failure_no_rows
    (items : List Item) (env : BulkEnv) (db : List Order) (k : Nat)
    (hk : k < items.length)
    (hpre : ∀ j, j < k → itemValidates env.fetch (items.getD j default) j = true)
    (hfail : itemValidates env.fetch (items.getD k default) k = false) :
    (createBulkOrder items env db).status = 400 ∧
    (createBulkOrder items env db).db = db ∧
    (createBulkOrder items env db).acts = [] := by
  have hpre0 : ∀ j, j < k →
      itemValidates env.fetch (items.getD j default) (0 + j) = true := by
    intro j hj
    simpa using hpre j hj
  have hfail0 : itemValidates env.fetch (items.getD k default) (0 + k) = false := by
    simpa using hfail
  obtain ⟨f, hveq⟩ :=
    validateGo_error_of_item_failure env.fetch items 0 k hk hpre0 hfail0
  simp [createBulkOrder, hveq]

/-- Witness for C3: scenario C — the two-item batch where item 2 requests
100 against stock 10; item 1 validates first, yet zero rows persist. -/
theorem bulk_validation_failure_no_rows_witness :
    (createBulkOrder bulkItemsBad bulkEnvB []).status = 400 ∧
    (createBulkOrder bulkItemsBad bulkEnvB []).db = [] ∧
    (createBulkOrder bulkItemsBad bulkEnvB []).acts = [] :=
  bulk_validation_failure_no_rows bulkItemsBad bulkEnvB [] 1 (by decide)
    (by decide) (by decide)

/-! ### C4: bulk transaction phase is all-or-nothing -/

/-- C4: when every bulk item validates, the inserts happen inside one local
transaction: a begin failure, any insert failure, or a commit failure leaves
the orders table unchanged and answers 500; when every insert and the commit
succeed, all N rows (one per item) are appended and the handler answers 201. -/
theorem bulk_transaction_all_or_nothing
    (items : List Item) (env : BulkEnv) (db : List Order)
    (vs : List ValidatedItem)
    (hv : validateGo env.fetch 0 items = .ok vs) :
    (env.beginOk = false →
      (createBulkOrder items env db).status = 500 ∧
      (createBulkOrder items env db).db = db ∧
      (createBulkOrder items env db).acts = []) ∧
    (∀ pid, env.beginOk = true → txGo env.insert 0 vs = .error pid →
      (createBulkOrder items env db).status = 500 ∧
      (createBulkOrder items env db).db = db ∧
      (createBulkOrder items env db).acts = []) ∧
    (∀ os, env.beginOk = true → txGo env.insert 0 vs = .ok os →
      env.commitOk = false →
      (createBulkOrder items env db).status = 500 ∧
      (createBulkOrder items env db).db = db ∧
      (createBulkOrder items env db).acts = []) ∧
    (∀ os, env.beginOk = true → txGo env.insert 0 vs = .ok os →
      env.commitOk = true →
      (createBulkOrder items env db).status = 201 ∧
      (createBulkOrder items env db).db = db ++ os ∧
      os.length = items.length) := by
  refine ⟨?_, ?_, ?_, ?_⟩
  · intro hb
    simp [createBulkOrder, hv, hb]
  · intro pid hb ht
    simp [createBulkOrder, hv, hb, ht]
  · intro os hb ht hc
    simp [createBulkOrder, hv, hb, ht, hc]
  · intro os hb ht hc
    have hlen : os.length = items.length := by
      have h1 := (txGo_ok_spec env.insert vs 0 os ht).length_eq
      have h2 := validateGo_ok_length env.fetch items 0 vs hv
      omega
    exact ⟨by simp [createBulkOrder, hv, hb, ht, hc],
           by simp [createBulkOrder, hv, hb, ht, hc], hlen⟩

/-- Witness for C4: with the two validating items, the commit-failing run
persists zero rows and answers 500, while the successful run persists both
rows and answers 201. -/
theorem bulk_transaction_all_or_nothing_witness :
    ((createBulkOrder bulkItemsOk bulkEnvCommitFail []).status = 500 ∧
     (createBulkOrder bulkItemsOk bulkEnvCommitFail []).db = [] ∧
     (createBulkOrder bulkItemsOk bulkEnvCommitFail []).acts = []) ∧
    ((createBulkOrder bulkItemsOk bulkEnvB []).status = 201 ∧
     (createBulkOrder bulkItemsOk bulkEnvB []).db = [] ++ osB ∧
     osB.length = bulkItemsOk.length) := by
  have ht : txGo bulkInsertB 0 vsB = .ok osB := by
    simp [txGo, vsB, osB, bulkInsertB, productA, productB]
    norm_num
  exact ⟨(bulk_transaction_all_or_nothing bulkItemsOk bulkEnvCommitFail [] vsB
      (by decide)).2.2.1 osB rfl ht rfl,
   (bulk_transaction_all_or_nothing bulkItemsOk bulkEnvB [] vsB
      (by decide)).2.2.2 osB rfl ht rfl⟩

/-! ### C5: external-phase failures are invisible to caller and store -/

/-- C5: for both workflows, the status, body, committed rows and outbound
actions are the same whatever the outcomes of the external-phase stock
update and event publish are (those outcomes reach only the log), and the
committed table is only ever extended — a handler never rewrites an
already-committed row. -/
theorem external_phase_never_affects_response_or_rows :
    (∀ (req : OrderReq) (fetch : Except FetchErr Product)
        (ins : Except Unit (Int × Int)) (u1 p1 u2 p2 : Bool) (now : Int)
        (db : List Order),
      (createOrder req ⟨fetch, ins, u1, p1, now⟩ db).status =
        (createOrder req ⟨fetch, ins, u2, p2, now⟩ db).status ∧
      (createOrder req ⟨fetch, ins, u1, p1, now⟩ db).body =
        (createOrder req ⟨fetch, ins, u2, p2, now⟩ db).body ∧
      (createOrder req ⟨fetch, ins, u1, p1, now⟩ db).db =
        (createOrder req ⟨fetch, ins, u2, p2, now⟩ db).db ∧
      (createOrder req ⟨fetch, ins, u1, p1, now⟩ db).acts =
        (createOrder req ⟨fetch, ins, u2, p2, now⟩ db).acts ∧
      ∃ t, (createOrder req ⟨fetch, ins, u1, p1, now⟩ db).db = db ++ t) ∧
    (∀ (items : List Item) (fetch : Nat → Except FetchErr Product)
        (bg : Bool) (ins : Nat → Except Unit (Int × Int)) (cm : Bool)
        (u1 p1 u2 p2 : Nat → Bool) (now : Nat → Int) (db : List Order),
      (createBulkOrder items ⟨fetch, bg, ins, cm, u1, p1, now⟩ db).status =
        (createBulkOrder items ⟨fetch, bg, ins, cm, u2, p2, now⟩ db).status ∧
      (createBulkOrder items ⟨fetch, bg, ins, cm, u1, p1, now⟩ db).body =
        (createBulkOrder items ⟨fetch, bg, ins, cm, u2, p2, now⟩ db).body ∧
      (createBulkOrder items ⟨fetch, bg, ins, cm, u1, p1, now⟩ db).db =
        (createBulkOrder items ⟨fetch, bg, ins, cm, u2, p2, now⟩ db).db ∧
      (createBulkOrder items ⟨fetch, bg, ins, cm, u1, p1, now⟩ db).acts =
        (createBulkOrder items ⟨fetch, bg, ins, cm, u2, p2, now⟩ db).acts ∧
      ∃ t, (createBulkOrder items ⟨fetch, bg, ins, cm, u1, p1, now⟩ db).db =
        db ++ t) := by
  constructor
  · intro req fetch ins u1 p1 u2 p2 now db
    cases hf : fetch with
    | error e => refine ⟨?_, ?_, ?_, ?_, [], ?_⟩ <;> simp [createOrder, hf]
    | ok p =>
        by_cases hs : p.stock < req.quantity
        · refine ⟨?_, ?_, ?_, ?_, [], ?_⟩ <;> simp [createOrder, hf, hs]
        · cases hins : ins with
          | error u => refine ⟨?_, ?_, ?_, ?_, [], ?_⟩ <;>
              simp [createOrder, hf, hs, hins]
          | ok pr =>
              obtain ⟨oid, ts⟩ := pr
              exact ⟨by simp [createOrder, hf, hs, hins],
                     by simp [createOrder, hf, hs, hins],
                     by simp [createOrder, hf, hs, hins],
                     by simp [createOrder, hf, hs, hins],
                     [⟨oid, req.userId, req.productId, req.quantity,
                       p.price * (req.quantity : Rat), "confirmed", ts⟩],
                     by simp [createOrder, hf, hs, hins]⟩
  · intro items fetch bg ins cm u1 p1 u2 p2 now db
    cases hv : validateGo fetch 0 items with
    | error f => refine ⟨?_, ?_, ?_, ?_, [], ?_⟩ <;> simp [createBulkOrder, hv]
    | ok vs =>
        cases bg with
        | false => refine ⟨?_, ?_, ?_, ?_, [], ?_⟩ <;> simp [createBulkOrder, hv]
        | true =>
            cases ht : txGo ins 0 vs with
            | error pid => refine ⟨?_, ?_, ?_, ?_, [], ?_⟩ <;>
                simp [createBulkOrder, hv, ht]
            | ok os =>
                cases cm with
                | false => refine ⟨?_, ?_, ?_, ?_, [], ?_⟩ <;>
                    simp [createBulkOrder, hv, ht]
                | true => refine ⟨?_, ?_, ?_, ?_, os, ?_⟩ <;>
                    simp [createBulkOrder, hv, ht]

/-! ### C7: inventory unavailability during validation -/

/-- Counterexample to C7 as stated: in a bulk invocation whose first
inventory fetch fails with a transport error, the handler answers 400 — a
client error, not a 5xx server error. -/
theorem bulk_fetch_failure_not_5xx_counterexample :
    (createBulkOrder [⟨1, 1⟩] bulkEnvFetchFail []).status = 400 ∧
    ¬ (500 ≤ (createBulkOrder [⟨1, 1⟩] bulkEnvFetchFail []).status ∧
       (createBulkOrder [⟨1, 1⟩] bulkEnvFetchFail []).status ≤ 599) := by
  decide

/-- C7 amended: a fetch failure during validation creates no row in either
workflow; the single-item workflow surfaces it as a 500 server error, while
the bulk workflow surfaces it as a 400 client error naming the product. -/
theorem fetch_failure_no_row_single_500_bulk_400 :
    (∀ (req : OrderReq) (env : SingleEnv) (db : List Order) (e : FetchErr),
      env.fetch = .error e →
      (createOrder req env db).status = 500 ∧
      (createOrder req env db).db = db ∧
      (createOrder req env db).acts = []) ∧
    (∀ (items : List Item) (env : BulkEnv) (db : List Order) (k : Nat)
        (e : FetchErr),
      k < items.length →
      (∀ j, j < k → itemValidates env.fetch (items.getD j default) j = true) →
      env.fetch k = .error e →
      (createBulkOrder items env db).status = 400 ∧
      (createBulkOrder items env db).db = db ∧
      (createBulkOrder items env db).acts = []) := by
  constructor
  · intro req env db e hf
    simp [createOrder, hf]
  · intro items env db k e hk hpre hfk
    have hfail0 :
        itemValidates env.fetch (items.getD k default) (0 + k) = false := by
      simp only [Nat.zero_add]
      unfold itemValidates
      rw [hfk]
    have hpre0 : ∀ j, j < k →
        itemValidates env.fetch (items.getD j default) (0 + j) = true := by
      intro j hj
      simpa using hpre j hj
    obtain ⟨f, hveq⟩ :=
      validateGo_error_of_item_failure env.fetch items 0 k hk hpre0 hfail0
    simp [createBulkOrder, hveq]

/-- Witness for the amended C7: a single run whose fetch fails answers 500
with no row; the bulk run of `bulk_fetch_failure_not_5xx_counterexample`'s
shape answers 400 with no row. -/
theorem fetch_failure_no_row_single_500_bulk_400_witness :
    ((createOrder reqA envFetchFail []).status = 500 ∧
     (createOrder reqA envFetchFail []).db = [] ∧
     (createOrder reqA envFetchFail []).acts = []) ∧
    ((createBulkOrder bulkItemsOk bulkEnvFetchFail []).status = 400 ∧
     (createBulkOrder bulkItemsOk bulkEnvFetchFail []).db = [] ∧
     (createBulkOrder bulkItemsOk bulkEnvFetchFail []).acts = []) :=
  ⟨fetch_failure_no_row_single_500_bulk_400.1 reqA envFetchFail []
      (.netErr "connection refused") rfl,
   fetch_failure_no_row_single_500_bulk_400.2 bulkItemsOk bulkEnvFetchFail []
      0 (.netErr "connection refused") (by decide)
      (by intro j hj; omega) rfl⟩

/-! ### C8: per persisted order, one stock update then one publish -/

/-- C8: every successful invocation performs, per persisted order and in this
fixed order, exactly one stock update whose new stock is the validation-time
snapshot's stock minus the requested quantity, followed by the
`order_created` publish for that order. -/
theorem external_phase_update_then_publish_per_order :
    (∀ (req : OrderReq) (env : SingleEnv) (db : List Order),
      (createOrder req env db).status = 201 →
      ∃ p o, env.fetch = .ok p ∧
        (createOrder req env db).body = .orderBody o ∧
        (createOrder req env db).acts =
          [.updateStock req.productId
             (stockUpdatePayload p (p.stock - req.quantity)),
           .publish (orderCreatedEvent o env.now)]) ∧
    (∀ (items : List Item) (env : BulkEnv) (db : List Order),
      (createBulkOrder items env db).status = 201 →
      ∃ vs os, validateGo env.fetch 0 items = .ok vs ∧
        (createBulkOrder items env db).body = .ordersBody os ∧
        (createBulkOrder items env db).db = db ++ os ∧
        os.length = vs.length ∧
        (createBulkOrder items env db).acts.length = 2 * os.length ∧
        ∀ j, j < os.length →
          (createBulkOrder items env db).acts.getD (2 * j) default =
            .updateStock ((os.zip vs).getD j default).2.productId
              (stockUpdatePayload ((os.zip vs).getD j default).2.product
                (((os.zip vs).getD j default).2.product.stock -
                  ((os.zip vs).getD j default).2.quantity)) ∧
          (createBulkOrder items env db).acts.getD (2 * j + 1) default =
            .publish (orderCreatedEvent ((os.zip vs).getD j default).1
              (env.now j))) := by
  constructor
  · intro req env db h
    cases hf : env.fetch with
    | error e => simp [createOrder, hf] at h
    | ok p =>
        by_cases hs : p.stock < req.quantity
        · simp [createOrder, hf, hs] at h
        · cases hins : env.insert with
          | error u => simp [createOrder, hf, hs, hins] at h
          | ok pr =>
              obtain ⟨oid, ts⟩ := pr
              exact ⟨p, ⟨oid, req.userId, req.productId, req.quantity,
                         p.price * (req.quantity : Rat), "confirmed", ts⟩,
                     rfl, by simp [createOrder, hf, hs, hins],
                     by simp [createOrder, hf, hs, hins]⟩
  · intro items env db h
    cases hv : validateGo env.fetch 0 items with
    | error f => simp [createBulkOrder, hv] at h
    | ok vs =>
        by_cases hb : env.beginOk
        · cases ht : txGo env.insert 0 vs with
          | error pid => simp [createBulkOrder, hv, hb, ht] at h
          | ok os =>
              by_cases hc : env.commitOk
              · have hlen : vs.length = os.length :=
                  (txGo_ok_spec env.insert vs 0 os ht).length_eq
                have hzlen : (os.zip vs).length = os.length := by
                  rw [List.length_zip]
                  omega
                have hacts : (createBulkOrder items env db).acts =
                    extGo env.now 0 (os.zip vs) := by
                  simp [createBulkOrder, hv, hb, ht, hc]
                refine ⟨vs, os, rfl, by simp [createBulkOrder, hv, hb, ht, hc],
                        by simp [createBulkOrder, hv, hb, ht, hc],
                        hlen.symm, ?_, ?_⟩
                · rw [hacts, extGo_length, hzlen]
                · intro j hj
                  have hj2 : j < (os.zip vs).length := by omega
                  have hx := extGo_getD env.now (os.zip vs) 0 j hj2
                  rw [hacts]
                  exact ⟨hx.1, by simpa using hx.2⟩
              · simp [createBulkOrder, hv, hb, ht, hc] at h
        · simp [createBulkOrder, hv, hb] at h

/-- Witness for C8: the single scenario-A run and the successful two-item
bulk run both exhibit the update-then-publish action pattern. -/
theorem external_phase_update_then_publish_per_order_witness :
    (∃ p o, envA.fetch = .ok p ∧
      (createOrder reqA envA []).body = .orderBody o ∧
      (createOrder reqA envA []).acts =
        [.updateStock reqA.productId
           (stockUpdatePayload p (p.stock - reqA.quantity)),
         .publish (orderCreatedEvent o envA.now)]) ∧
    (∃ vs os, validateGo bulkEnvB.fetch 0 bulkItemsOk = .ok vs ∧
      (createBulkOrder bulkItemsOk bulkEnvB []).body = .ordersBody os ∧
      (createBulkOrder bulkItemsOk bulkEnvB []).db = [] ++ os ∧
      os.length = vs.length ∧
      (createBulkOrder bulkItemsOk bulkEnvB []).acts.length = 2 * os.length ∧
      ∀ j, j < os.length →
        (createBulkOrder bulkItemsOk bulkEnvB []).acts.getD (2 * j) default =
          .updateStock ((os.zip vs).getD j default).2.productId
            (stockUpdatePayload ((os.zip vs).getD j default).2.product
              (((os.zip vs).getD j default).2.product.stock -
                ((os.zip vs).getD j default).2.quantity)) ∧
        (createBulkOrder bulkItemsOk bulkEnvB []).acts.getD (2 * j + 1) default =
          .publish (orderCreatedEvent ((os.zip vs).getD j default).1
            (bulkEnvB.now j))) :=
  ⟨external_phase_update_then_publish_per_order.1 reqA envA [] (by decide),
   external_phase_update_then_publish_per_order.2 bulkItemsOk bulkEnvB []
     (by decide)⟩

/-! ### C9: no positivity check on the requested quantity -/

/-- Counterexample to C9 as stated: a single-order request with quantity 0
against product 1 (stock 50) is answered 201 and a row with quantity 0 is
persisted, so not every persisted row has a positive quantity. -/
theorem zero_quantity_persists_row_counterexample :
    (createOrder reqZero envZero []).status = 201 ∧
    (createOrder reqZero envZero []).db.length = 1 ∧
    ((createOrder reqZero envZero []).db.getD 0 default).quantity = 0 := by
  decide

/-- C9 amended: the workflow performs no positivity check on the quantity —
whenever the fetch succeeds with a nonnegative-stock snapshot, the insert
succeeds and the quantity is zero or negative, the stock check still passes
and a row carrying that non-positive quantity is persisted with a 201. -/
theorem no_positivity_check_persists_nonpositive_quantity
    (req : OrderReq) (env : SingleEnv) (db : List Order) (p : Product)
    (oid ts : Int) (hq : req.quantity ≤ 0) (hf : env.fetch = .ok p)
    (hst : 0 ≤ p.stock) (hins : env.insert = .ok (oid, ts)) :
    (createOrder req env db).status = 201 ∧
    (createOrder req env db).db =
      db ++ [⟨oid, req.userId, req.productId, req.quantity,
              p.price * (req.quantity : Rat), "confirmed", ts⟩] := by
  have hs : ¬ p.stock < req.quantity := by omega
  constructor <;> simp [createOrder, hf, hins, hs]

/-- Witness for the amended C9: the concrete zero-quantity run persists its
zero-quantity row. -/
theorem no_positivity_check_persists_nonpositive_quantity_witness :
    (createOrder reqZero envZero []).status = 201 ∧
    (createOrder reqZero envZero []).db =
      [] ++ [⟨11, reqZero.userId, reqZero.productId, reqZero.quantity,
              productA.price * (reqZero.quantity : Rat), "confirmed", 5⟩] :=
  no_positivity_check_persists_nonpositive_quantity reqZero envZero []
    productA 11 5 (by decide) rfl (by decide) rfl

/-! ### C10: a successful stock update blanks the remote description -/

/-- C10: `updateProductStock` always sends the full record with the
description hard-coded to the empty string and name/price from the
validation-time snapshot; the round trip reports success exactly when the
transport, the remote db.Exec and the row lookup all succeed; and the
inventory service's `updateProduct` applies all four fields
unconditionally, so after every stock update that succeeds the remote
product's description is the empty string, its name and price are the
snapshot's, and its stock is the new stock. -/
theorem updateStock_overwrites_description
    (product : Product) (newStock : Int) (rows : List InvProduct)
    (pid : Int) (transportOk execOk : Bool) :
    (stockUpdatePayload product newStock).description = "" ∧
    (stockUpdatePayload product newStock).name = product.name ∧
    (stockUpdatePayload product newStock).price = product.price ∧
    (stockUpdatePayload product newStock).stock = newStock ∧
    ((updateProductStockRemote rows pid product newStock transportOk
        execOk).2 = true ↔
      transportOk = true ∧ execOk = true ∧ ∃ r ∈ rows, r.id = pid) ∧
    ((updateProductStockRemote rows pid product newStock transportOk
        execOk).2 = true →
      (∃ r ∈ (updateProductStockRemote rows pid product newStock transportOk
          execOk).1, r.id = pid ∧ r.description = "") ∧
      ∀ r ∈ (updateProductStockRemote rows pid product newStock transportOk
          execOk).1,
        r.id = pid → r.description = "" ∧ r.name = product.name ∧
          r.price = product.price ∧ r.stock = newStock) := by
  refine ⟨rfl, rfl, rfl, rfl, ?_, ?_⟩
  · cases transportOk with
    | false => simp [updateProductStockRemote]
    | true =>
        cases execOk with
        | false => simp [updateProductStockRemote, updateProduct]
        | true =>
            by_cases h0 : rows.countP (fun r => decide (r.id = pid)) = 0
            · have hFalse : (updateProductStockRemote rows pid product
                  newStock true true).2 = false := by
                simp [updateProductStockRemote, updateProduct, h0]
              rw [hFalse]
              constructor
              · intro hc
                exact (Bool.false_ne_true hc).elim
              · rintro ⟨-, -, r, hr, hid⟩
                have hz := List.countP_eq_zero.mp h0 r hr
                simp [hid] at hz
            · have hTrue : (updateProductStockRemote rows pid product
                  newStock true true).2 = true := by
                simp [updateProductStockRemote, updateProduct, h0]
              obtain ⟨r, hr, hp⟩ :=
                List.countP_pos_iff.mp (Nat.pos_of_ne_zero h0)
              exact ⟨fun _ => ⟨rfl, rfl, r, hr, by simpa using hp⟩,
                     fun _ => hTrue⟩
  · intro hsucc
    cases transportOk with
    | false => simp [updateProductStockRemote] at hsucc
    | true =>
        cases execOk with
        | false => simp [updateProductStockRemote, updateProduct] at hsucc
        | true =>
            by_cases h0 : rows.countP (fun r => decide (r.id = pid)) = 0
            · simp [updateProductStockRemote, updateProduct, h0] at hsucc
            · have hpost :
                  (updateProductStockRemote rows pid product newStock true
                    true).1 = rows.map (fun r0 =>
                  if r0.id = pid then
                    (⟨r0.id, (stockUpdatePayload product newStock).name,
                      (stockUpdatePayload product newStock).description,
                      (stockUpdatePayload product newStock).price,
                      (stockUpdatePayload product newStock).stock,
                      r0.createdAt⟩ : InvProduct)
                  else r0) := by
                simp [updateProductStockRemote, updateProduct, h0]
              constructor
              · obtain ⟨r, hr, hp⟩ :=
                  List.countP_pos_iff.mp (Nat.pos_of_ne_zero h0)
                have hid : r.id = pid := by simpa using hp
                rw [hpost]
                refine ⟨_, List.mem_map_of_mem _ hr, ?_⟩
                simp only [if_pos hid]
                exact ⟨hid, rfl⟩
              · intro r hr hid
                rw [hpost] at hr
                obtain ⟨r0, hr0, hq⟩ := List.mem_map.mp hr
                by_cases hidr : r0.id = pid
                · rw [if_pos hidr] at hq
                  subst hq
                  exact ⟨rfl, rfl, rfl, rfl⟩
                · rw [if_neg hidr] at hq
                  subst hq
                  exact absurd hid hidr

/-- Witness for C10: with the transport and the remote statement succeeding,
updating product 1's stock to 45 against the concrete inventory table
reports success and leaves the row with an empty description and stock 45;
the same call with the transport failing reports failure. -/
theorem updateStock_overwrites_description_witness :
    (updateProductStockRemote invRowsA 1 productA 45 true true).2 = true ∧
    ((updateProductStockRemote invRowsA 1 productA 45 true true).1.getD 0
        default).description = "" ∧
    ((updateProductStockRemote invRowsA 1 productA 45 true true).1.getD 0
        default).stock = 45 ∧
    (updateProductStockRemote invRowsA 1 productA 45 false true).2 = false := by
  have h := updateStock_overwrites_description productA 45 invRowsA 1 true true
  have hf := updateStock_overwrites_description productA 45 invRowsA 1
    false true
  have hsucc : (updateProductStockRemote invRowsA 1 productA 45 true
      true).2 = true :=
    h.2.2.2.2.1.mpr ⟨rfl, rfl,
      ⟨1, "Laptop", "A fine laptop", 100, 50, 3⟩, by decide, by decide⟩
  refine ⟨hsucc, ?_, ?_, ?_⟩
  · exact ((h.2.2.2.2.2 hsucc).2
      ((updateProductStockRemote invRowsA 1 productA 45 true true).1.getD 0
        default)
      (by decide) (by decide)).1
  · exact ((h.2.2.2.2.2 hsucc).2
      ((updateProductStockRemote invRowsA 1 productA 45 true true).1.getD 0
        default)
      (by decide) (by decide)).2.2.2
  · by_contra hc
    have ht : (updateProductStockRemote invRowsA 1 productA 45 false
        true).2 = true := by
      cases hb : (updateProductStockRemote invRowsA 1 productA 45 false
          true).2
      · exact absurd hb hc
      · rfl
    have := hf.2.2.2.2.1.mp ht
    cases this.1
